import Mathlib

/-!
Shallow embedding of the `snapshot` Go package (package snapshot: snapshot.go,
diff.go, cmp.go, json.go) and proofs about its snapshot lifecycle and
comparison engine.

Modelling conventions:
* A data stream (Go `io.Reader`) is modelled by its full read outcome: either
  the complete text that reading it yields, or the message of the read error
  (`Except String String`).  Go code in this package only ever reads a stream
  to exhaustion (`io.Copy`, `io.ReadAll`), discarding partial data on error.
* The file system is a partial map from paths to file contents.
* `testing.T`'s fatal failures (`t.Fatalf`) are modelled by `Except.error`
  carrying the formatted fatal message; a normal return is `Except.ok`.
-/

namespace Snapshot

/-- A data stream, by its read outcome: `Except.ok s` is a stream whose full
contents read as the text `s`; `Except.error e` is a stream whose read fails
with an error whose `Error()` text is `e`. -/
abbrev Reader := Except String String

/-- Embeds `readToString` (snapshot.go): copies the reader into a
`strings.Builder` and returns the accumulated string together with the error
of `io.Copy`.  In the stream model the read outcome is the stream itself. -/
def readToString (r : Reader) : Except String String := r

/-- Embeds `io.ReadAll` as used by `CmpDiffComparator` (cmp.go): reads the
whole stream as a byte slice.  The byte contents coincide with the text
contents in this model; the distinction in Go dynamic type (`[]byte` versus
`string`) is kept by `GoVal` below. -/
def ioReadAll (r : Reader) : Except String String := r

/-- Hexadecimal digit characters, used by the `%q` model. -/
def hexDigit (k : Nat) : Char :=
  match k with
  | 0 => '0' | 1 => '1' | 2 => '2' | 3 => '3' | 4 => '4'
  | 5 => '5' | 6 => '6' | 7 => '7' | 8 => '8' | 9 => '9'
  | 10 => 'a' | 11 => 'b' | 12 => 'c' | 13 => 'd' | 14 => 'e' | _ => 'f'

/-- Two hexadecimal digits of `n` (n < 256). -/
def hex2 (n : Nat) : String := String.mk [hexDigit (n / 16), hexDigit (n % 16)]

/-- Escaping of one character under Go's `%q` verb (strconv quoting), for the
character ranges this package's data can contain: quote and backslash are
backslash-escaped, the named control escapes are used for the usual control
characters, other control bytes print as a hexadecimal escape, and printable
characters stand for themselves. -/
def goQuoteChar (c : Char) : String :=
  if c = '"' then "\\\""
  else if c = '\\' then "\\\\"
  else if c = '\n' then "\\n"
  else if c = '\r' then "\\r"
  else if c = '\t' then "\\t"
  else if c = '\x07' then "\\a"
  else if c = '\x08' then "\\b"
  else if c = '\x0c' then "\\f"
  else if c = '\x0b' then "\\v"
  else if c.toNat < 32 ∨ c.toNat = 127 then "\\x" ++ hex2 c.toNat
  else String.singleton c

/-- Go's `%q` rendering of a string: the escaped characters between double
quotes, as produced by `fmt.Sprintf("%q", s)`. -/
def goQuote (s : String) : String :=
  "\"" ++ String.join (s.data.map goQuoteChar) ++ "\""

/-- Embeds `StringComparator` (snapshot.go): reads `expected`, then `actual`,
into strings; on a read error it returns with `ok` at its zero value `false`
and a message naming the side that failed; otherwise `ok` is the string
equality and on mismatch the message renders both values with `%q`. -/
def StringComparator (expected actual : Reader) : Bool × String :=
  match readToString expected with
  | Except.error err => (false, "failed to read expected data from reader: " ++ err)
  | Except.ok eStr =>
    match readToString actual with
    | Except.error err => (false, "failed to read actual data from reader: " ++ err)
    | Except.ok aStr =>
      if eStr == aStr then (true, "")
      else (false, "expected " ++ goQuote eStr ++ ", got " ++ goQuote aStr)

/-- A Go value handed to `cmp.Diff`, tagged with its dynamic type as the
`snapshot` package builds it: a `string` (from `readToString`) or a `[]byte`
(from `io.ReadAll`).  The payload is the contents. -/
inductive GoVal
  | str (s : String)
  | bytes (b : String)
deriving DecidableEq

/-- Line-oriented diff text for two unequal renderings, standing in for the
go-cmp report body.  It is never empty. -/
def cmpDiffText (x y : String) : String :=
  "- " ++ (x ++ ("\n+ " ++ (y ++ "\n")))

/-- Models `cmp.Diff` of the go-cmp library (an external dependency; the spec
treats the diffing library as a pluggable collaborator).  Its documented
contract, which this model reproduces: the result is the empty string exactly
when the two values are equal, and a non-empty line-oriented diff report
otherwise; values of different dynamic types are never equal (go-cmp wraps
arguments of different types in an empty interface and reports the type
mismatch as an inequality). -/
def cmpDiff (x y : GoVal) : String :=
  match x, y with
  | GoVal.str a, GoVal.str b => if a == b then "" else cmpDiffText (goQuote a) (goQuote b)
  | GoVal.bytes a, GoVal.bytes b => if a == b then "" else cmpDiffText (goQuote a) (goQuote b)
  | GoVal.bytes a, GoVal.str b => cmpDiffText ("[]uint8(" ++ goQuote a ++ ")") ("string(" ++ goQuote b ++ ")")
  | GoVal.str a, GoVal.bytes b => cmpDiffText ("string(" ++ goQuote a ++ ")") ("[]uint8(" ++ goQuote b ++ ")")

/-- Embeds `StringDiffComparator` (diff.go): reads `actual`, then `expected`,
into strings via `readToString`; on a read error it returns with `ok` false
and a message naming the side; otherwise diffs the two strings with
`cmp.Diff` and passes iff the diff is empty. -/
def StringDiffComparator (expected actual : Reader) : Bool × String :=
  match readToString actual with
  | Except.error err => (false, "failed to read actual io.Reader: " ++ err)
  | Except.ok actualString =>
    match readToString expected with
    | Except.error err => (false, "failed to read expected io.Reader: " ++ err)
    | Except.ok expectedString =>
      let msg := cmpDiff (GoVal.str expectedString) (GoVal.str actualString)
      (msg == "", msg)

/-- Embeds `CmpDiffComparator` (cmp.go): reads `actual` into a string via
`readToString` but `expected` into a byte slice via `io.ReadAll`, then hands
both to `cmp.Diff`; passes iff the diff is empty.  Note the two arguments
reach `cmp.Diff` with different dynamic types. -/
def CmpDiffComparator (expected actual : Reader) : Bool × String :=
  match readToString actual with
  | Except.error err => (false, "failed to read actual io.Reader: " ++ err)
  | Except.ok actualBytes =>
    match ioReadAll expected with
    | Except.error err => (false, "failed to read expected io.Reader: " ++ err)
    | Except.ok expectedBytes =>
      let msg := cmpDiff (GoVal.bytes expectedBytes) (GoVal.str actualBytes)
      (msg == "", msg)

/-- The durable storage: a partial map from file paths to file contents. -/
def FS := String → Option String

/-- Storage after writing the full contents `c` to the file at path `p`
(`os.Create` followed by writes). -/
def fsUpdate (fs : FS) (p c : String) : FS :=
  fun q => if q = p then some c else fs q

/-- Storage with no snapshot artifacts at all. -/
def emptyFS : FS := fun _ => none

/-- Embeds `getSnapshotFilePath` (snapshot.go): the artifact path
`<test-directory>/__snapshots__/<test-name>/<name><ext>`, built by
`filepath.Join` from the calling test file's directory, the fixed
`__snapshots__` directory, the test's unique name, and `name+ext`.
`filepath.Clean` is the identity on these already-clean joined paths. -/
def getSnapshotFilePath (callerDir testName name ext : String) : String :=
  callerDir ++ "/__snapshots__/" ++ testName ++ "/" ++ name ++ ext

/-- A Comparator (snapshot.go): compares the expected and actual streams and
returns `ok` with a human readable failure reason. -/
abbrev Comparator := Reader → Reader → Bool × String

/-- A ReaderNormaliser (snapshot.go): transforms a stream before comparison. -/
abbrev ReaderNormaliser := Reader → Reader

/-- Embeds `NopReaderNormaliser` (snapshot.go): passes the stream through
unmodified. -/
def NopReaderNormaliser (r : Reader) : Reader := r

/-- Embeds `MatchOptions` (snapshot.go). -/
structure MatchOptions where
  SnapshotName : String
  FileExtension : String
  Comparator : Reader → Reader → Bool × String
  ReaderNormaliser : Reader → Reader

/-- Embeds `MatchOption` (snapshot.go): a mutation of `MatchOptions`. -/
abbrev MatchOption := MatchOptions → MatchOptions

/-- Embeds `WithOutputSnapshotName` (snapshot.go). -/
def WithOutputSnapshotName (name : String) : MatchOption :=
  fun o => { o with SnapshotName := name }

/-- Embeds `WithOutputSnapshotFileExtension` (snapshot.go). -/
def WithOutputSnapshotFileExtension (ext : String) : MatchOption :=
  fun o => { o with FileExtension := ext }

/-- Embeds `WithComparator` (snapshot.go). -/
def WithComparator (cmp : Comparator) : MatchOption :=
  fun o => { o with Comparator := cmp }

/-- Embeds `WithReaderNormaliser` (snapshot.go). -/
def WithReaderNormaliser (rn : ReaderNormaliser) : MatchOption :=
  fun o => { o with ReaderNormaliser := rn }

/-- The defaults `Match` starts from (snapshot.go): name "output", extension
".txt", `StringComparator`, `NopReaderNormaliser`. -/
def defaultMatchOptions : MatchOptions :=
  { SnapshotName := "output", FileExtension := ".txt",
    Comparator := StringComparator, ReaderNormaliser := NopReaderNormaliser }

/-- The option functions applied in order to the defaults, as `Match`'s
opening loop does. -/
def applyMatchOptions (optFns : List MatchOption) : MatchOptions :=
  optFns.foldl (fun o f => f o) defaultMatchOptions

/-- Embeds `Match` (snapshot.go).  `callerDir` and `testName` determine the
artifact path; `fs` is the storage; `actual` the stream under test.  When the
artifact exists it becomes the expected stream; when absent, the actual
stream is copied to a fresh artifact file and to an in-memory buffer
(`io.MultiWriter`), the file is rewound, and those two byte-identical copies
serve as expected and actual.  Both streams pass through the normaliser
before the comparator runs.  `Except.error` models `t.Fatalf` (here: a read
failure of `actual` while copying it to the new artifact file). -/
def Match (callerDir testName : String) (fs : FS) (actual : Reader)
    (optFns : List MatchOption) : Except String (Bool × String × FS) :=
  let opts := applyMatchOptions optFns
  let p := getSnapshotFilePath callerDir testName opts.SnapshotName opts.FileExtension
  match fs p with
  | some expectedContent =>
    let r := opts.Comparator (opts.ReaderNormaliser (Except.ok expectedContent))
      (opts.ReaderNormaliser actual)
    Except.ok (r.1, r.2, fs)
  | none =>
    match actual with
    | Except.error err =>
      Except.error ("failed to write to newly created snapshot file: " ++ p ++ ": " ++ err)
    | Except.ok a =>
      let r := opts.Comparator (opts.ReaderNormaliser (Except.ok a))
        (opts.ReaderNormaliser (Except.ok a))
      Except.ok (r.1, r.2, fsUpdate fs p a)

/-- Embeds `SnapshotCreator` (snapshot.go) by its invocation outcome: calling
the creator either fails with an error or yields a stream. -/
abbrev SnapshotCreator := Except String Reader

/-- Embeds `GetTestInputOptions` (snapshot.go). -/
structure GetTestInputOptions where
  SnapshotName : String
  FileExtension : String
  CreateSnapshot : Option SnapshotCreator

/-- Embeds `GetTestInputOption` (snapshot.go). -/
abbrev GetTestInputOption := GetTestInputOptions → GetTestInputOptions

/-- Embeds `WithInputSnapshotName` (snapshot.go). -/
def WithInputSnapshotName (name : String) : GetTestInputOption :=
  fun o => { o with SnapshotName := name }

/-- Embeds `WithInputSnapshotFileExtension` (snapshot.go). -/
def WithInputSnapshotFileExtension (ext : String) : GetTestInputOption :=
  fun o => { o with FileExtension := ext }

/-- Embeds `WithCreateSnapshot` (snapshot.go). -/
def WithCreateSnapshot (r : SnapshotCreator) : GetTestInputOption :=
  fun o => { o with CreateSnapshot := some r }

/-- Embeds `WithInputSnapshotReader` (snapshot.go): a creator that returns
the given reader and no error. -/
def WithInputSnapshotReader (r : Reader) : GetTestInputOption :=
  WithCreateSnapshot (Except.ok r)

/-- The defaults `GetTestInput` starts from (snapshot.go): name "input",
extension ".txt", no creator. -/
def defaultGetTestInputOptions : GetTestInputOptions :=
  { SnapshotName := "input", FileExtension := ".txt", CreateSnapshot := none }

/-- The option functions applied in order to the defaults, as
`GetTestInput`'s opening loop does. -/
def applyGetTestInputOptions (optFns : List GetTestInputOption) : GetTestInputOptions :=
  optFns.foldl (fun o f => f o) defaultGetTestInputOptions

/-- The stream `GetTestInput` hands back to the caller: either the opened
existing artifact file (`io.NopCloser(file)`), or `io.TeeReader(in, file)`,
a lazy tee that writes each byte to the artifact file at `path` as the
caller reads it from the creator's stream `src`. -/
inductive InputReader
  | file (content : String)
  | tee (src : Reader) (path : String)

/-- Embeds `GetTestInput` (snapshot.go).  When the artifact exists its
contents are returned and storage is untouched.  When absent: with no
creator, the test fails fatally; with a creator that errors, the test fails
fatally; otherwise the artifact file is created (empty, `os.Create`) and a
tee of the creator's stream into that file is returned.  `Except.error`
models `t.Fatalf` with its formatted message. -/
def GetTestInput (callerDir testName : String) (fs : FS)
    (optFns : List GetTestInputOption) : Except String (InputReader × FS) :=
  let opts := applyGetTestInputOptions optFns
  let p := getSnapshotFilePath callerDir testName opts.SnapshotName opts.FileExtension
  match fs p with
  | some content => Except.ok (InputReader.file content, fs)
  | none =>
    match opts.CreateSnapshot with
    | none =>
      Except.error ("snapshot file " ++ goQuote p ++
        " does not exist and no CreateSnapshot option was provided")
    | some creator =>
      match creator with
      | Except.error err => Except.error ("snapshot creator failed with an error " ++ err)
      | Except.ok src => Except.ok (InputReader.tee src p, fsUpdate fs p "")

/-- The caller fully reading the stream `GetTestInput` returned: a plain file
stream yields its contents and leaves storage alone; a tee stream yields the
source's contents and, as a side effect of the same single read, writes those
bytes through to the artifact file.  A source read error yields the error
(partial tee output is not modelled: the stream model carries no partial
data). -/
def readInput : InputReader → FS → Except String String × FS
  | InputReader.file c, fs => (Except.ok c, fs)
  | InputReader.tee (Except.ok c) p, fs => (Except.ok c, fsUpdate fs p c)
  | InputReader.tee (Except.error err) _, fs => (Except.error err, fs)

mutual

/-- A JSON-encodable Go value, as `encoding/json` sees it: null (nil pointer
or interface), booleans, integers, strings, slices and structs/maps (an
ordered field list).  The spec scopes the engine to values the encoder
accepts; encoding details live in the external `encoding/json` package and
are modelled by `encodeIndent` below. -/
inductive JValue
  | null
  | bool (b : Bool)
  | num (n : Int)
  | str (s : String)
  | arr (items : JArr)
  | obj (fields : JObj)

/-- The items of a JSON array value. -/
inductive JArr
  | nil
  | cons (v : JValue) (tl : JArr)

/-- The fields of a JSON object value, in encoding order. -/
inductive JObj
  | nil
  | cons (key : String) (v : JValue) (tl : JObj)

end

/-- A decimal digit character (Go `strconv` digit table). -/
def digitChar (k : Nat) : Char :=
  match k with
  | 0 => '0' | 1 => '1' | 2 => '2' | 3 => '3' | 4 => '4'
  | 5 => '5' | 6 => '6' | 7 => '7' | 8 => '8' | _ => '9'

/-- Decimal digits of `n` accumulated onto `acc`, fuelled as Go's
`strconv` division loop terminates; `fuel = n + 1` always suffices. -/
def digitsAux : Nat → Nat → List Char → List Char
  | 0, _, acc => acc
  | fuel + 1, n, acc =>
    if n < 10 then digitChar n :: acc
    else digitsAux fuel (n / 10) (digitChar (n % 10) :: acc)

/-- Decimal rendering of a natural number. -/
def natRepr (n : Nat) : String := String.mk (digitsAux (n + 1) n [])

/-- Decimal rendering of an integer, as `encoding/json` emits Go integers. -/
def intRepr (n : Int) : String :=
  if n < 0 then "-" ++ natRepr n.natAbs else natRepr n.natAbs

/-- Escaping of one character inside a JSON string literal as
`encoding/json` writes it with its default HTML escaping: quote and
backslash are backslash-escaped, newline, carriage return and tab use their
named escapes, the HTML-sensitive characters and remaining control
characters use `\u00xx`, and other printable characters stand for
themselves. -/
def jsonEscapeChar (c : Char) : String :=
  if c = '"' then "\\\""
  else if c = '\\' then "\\\\"
  else if c = '\n' then "\\n"
  else if c = '\r' then "\\r"
  else if c = '\t' then "\\t"
  else if c = '<' then "\\u003c"
  else if c = '>' then "\\u003e"
  else if c = '&' then "\\u0026"
  else if c.toNat < 32 then "\\u00" ++ hex2 c.toNat
  else String.singleton c

/-- A JSON string literal: the escaped characters between double quotes. -/
def jsonQuote (s : String) : String :=
  ("\"" ++ String.join (s.data.map jsonEscapeChar)) ++ "\""

/-- The indentation in front of a line nested `d` levels deep, for an
encoder configured with `SetIndent("", "  ")`: `d` copies of two spaces. -/
def indentStr (d : Nat) : String := String.join (List.replicate d "  ")

mutual

/-- Models the `encoding/json` encoder's indented rendering of a value whose
own lines are nested `d` levels deep (`enc.SetIndent("", "  ")`): scalars
render compactly, non-empty arrays and objects open their bracket, put each
item on its own line indented one level deeper, and close the bracket at
depth `d`. -/
def encodeIndent : JValue → Nat → String
  | JValue.null, _ => "null"
  | JValue.bool true, _ => "true"
  | JValue.bool false, _ => "false"
  | JValue.num n, _ => intRepr n
  | JValue.str s, _ => jsonQuote s
  | JValue.arr JArr.nil, _ => "[]"
  | JValue.arr (JArr.cons v tl), d =>
    ("[\n" ++ encodeArrItems (JArr.cons v tl) (d + 1) ++ "\n" ++ indentStr d) ++ "]"
  | JValue.obj JObj.nil, _ => "\x7b\x7d"
  | JValue.obj (JObj.cons k v tl), d =>
    ("\x7b\n" ++ encodeObjItems (JObj.cons k v tl) (d + 1) ++ "\n" ++ indentStr d) ++ "\x7d"

/-- The comma-and-newline separated lines of a JSON array's items at
depth `d`. -/
def encodeArrItems : JArr → Nat → String
  | JArr.nil, _ => ""
  | JArr.cons v JArr.nil, d => indentStr d ++ encodeIndent v d
  | JArr.cons v (JArr.cons w tl), d =>
    indentStr d ++ encodeIndent v d ++ ",\n" ++ encodeArrItems (JArr.cons w tl) d

/-- The comma-and-newline separated lines of a JSON object's fields at
depth `d`. -/
def encodeObjItems : JObj → Nat → String
  | JObj.nil, _ => ""
  | JObj.cons k v JObj.nil, d => indentStr d ++ jsonQuote k ++ ": " ++ encodeIndent v d
  | JObj.cons k v (JObj.cons k2 w tl), d =>
    indentStr d ++ jsonQuote k ++ ": " ++ encodeIndent v d ++ ",\n" ++
      encodeObjItems (JObj.cons k2 w tl) d

end

/-- Models `json.Encoder.Encode` with `SetIndent("", "  ")` (json.go): the
indented encoding of the value followed by the newline `Encode` appends. -/
def encoderEncode (v : JValue) : String := encodeIndent v 0 ++ "\n"

/-- The argument `AsJSON` receives, after Go reflection has classified it
(json.go): either a plain value, or a zero-argument callable together with
the list of results calling it produced (`reflect.Value.Call` returns the
result list; `AsJSON` requires exactly one). -/
inductive JSONInput
  | value (v : JValue)
  | callable (results : List JValue)

/-- Embeds `AsJSON` (json.go): a callable must have produced exactly one
result, which is then encoded like a plain value; any other result arity is
an error and nothing is encoded.  A plain value is encoded directly.  The
buffered stream's contents are the encoder's output. -/
def AsJSON : JSONInput → Except String String
  | JSONInput.value v => Except.ok (encoderEncode v)
  | JSONInput.callable [v] => Except.ok (encoderEncode v)
  | JSONInput.callable _ =>
    Except.error "callable arguments to AsJSON must return a single value"

/-- The last character of a string, if any. -/
def lastChar (s : String) : Option Char := s.data.getLast?

/-- How many newline characters the string ends with. -/
def trailingNewlines (s : String) : Nat :=
  (s.data.reverse.takeWhile (fun c => c == '\n')).length

/-! ### Helper lemmas -/

/-- A string built by appending to a non-empty left part is non-empty. -/
theorem append_ne_empty (a b : String) (h : a ≠ "") : a ++ b ≠ "" := by
  intro hab
  apply h
  have hd : (a ++ b).data = [] := by rw [hab]
  rw [String.data_append] at hd
  exact String.ext (List.append_eq_nil.mp hd).1

/-- The modelled diff report is never the empty string. -/
theorem cmpDiffText_ne_empty (x y : String) : cmpDiffText x y ≠ "" := by
  unfold cmpDiffText
  exact append_ne_empty _ _ (by decide)

/-- A character the last-character view returns is a member of the string's
character list. -/
theorem mem_of_lastChar (l : List Char) (c : Char) (h : l.getLast? = some c) : c ∈ l := by
  induction l with
  | nil => simp at h
  | cons a tl ih =>
    cases tl with
    | nil => simp_all
    | cons b tl2 =>
      rw [List.getLast?_cons_cons] at h
      exact List.mem_cons_of_mem a (ih h)

/-- The last character of a string extended by a one-character string. -/
theorem lastChar_append_single (s t : String) (c : Char) (h : t.data = [c]) :
    lastChar (s ++ t) = some c := by
  unfold lastChar
  rw [String.data_append, h]
  exact List.getLast?_concat _

/-- The last character of a string extended by a non-empty string. -/
theorem lastChar_append_right (s t : String) (h : t.data ≠ []) :
    lastChar (s ++ t) = lastChar t := by
  unfold lastChar
  rw [String.data_append]
  exact List.getLast?_append_of_ne_nil _ h

/-- No digit character is a newline. -/
theorem digitChar_ne_nl (k : Nat) : digitChar k ≠ '\n' := by
  unfold digitChar
  split <;> decide

/-- Every character the digit loop emits is a digit character or comes from
the accumulator; in particular none is a newline when the accumulator has
none. -/
theorem digitsAux_ne_nl (fuel : Nat) : ∀ (n : Nat) (acc : List Char),
    (∀ c ∈ acc, c ≠ '\n') → ∀ c ∈ digitsAux fuel n acc, c ≠ '\n' := by
  induction fuel with
  | zero => intro n acc hacc c hc; exact hacc c hc
  | succ fuel ih =>
    intro n acc hacc c hc
    unfold digitsAux at hc
    by_cases h : n < 10
    · rw [if_pos h] at hc
      rcases List.mem_cons.mp hc with h1 | h1
      · rw [h1]; exact digitChar_ne_nl n
      · exact hacc c h1
    · rw [if_neg h] at hc
      refine ih (n / 10) (digitChar (n % 10) :: acc) ?_ c hc
      intro c' hc'
      rcases List.mem_cons.mp hc' with h1 | h1
      · rw [h1]; exact digitChar_ne_nl _
      · exact hacc c' h1

/-- The digit loop never discards a non-empty accumulator. -/
theorem digitsAux_ne_nil (fuel : Nat) : ∀ (n : Nat) (acc : List Char),
    acc ≠ [] → digitsAux fuel n acc ≠ [] := by
  induction fuel with
  | zero => intro n acc hacc; exact hacc
  | succ fuel ih =>
    intro n acc hacc
    unfold digitsAux
    by_cases h : n < 10
    · rw [if_pos h]; exact List.cons_ne_nil _ _
    · rw [if_neg h]; exact ih (n / 10) _ (List.cons_ne_nil _ _)

/-- A natural number's decimal rendering is non-empty. -/
theorem natRepr_data_ne_nil (n : Nat) : (natRepr n).data ≠ [] := by
  show digitsAux (n + 1) n [] ≠ []
  unfold digitsAux
  by_cases h : n < 10
  · rw [if_pos h]; exact List.cons_ne_nil _ _
  · rw [if_neg h]; exact digitsAux_ne_nil n (n / 10) _ (List.cons_ne_nil _ _)

/-- A natural number's decimal rendering does not end in a newline. -/
theorem lastChar_natRepr (n : Nat) : lastChar (natRepr n) ≠ some '\n' := by
  intro h
  have hm : '\n' ∈ digitsAux (n + 1) n [] := mem_of_lastChar _ _ h
  exact digitsAux_ne_nl (n + 1) n [] (by intro c hc; cases hc) '\n' hm rfl

/-- An integer's decimal rendering does not end in a newline. -/
theorem lastChar_intRepr (n : Int) : lastChar (intRepr n) ≠ some '\n' := by
  unfold intRepr
  by_cases h : n < 0
  · rw [if_pos h, lastChar_append_right _ _ (natRepr_data_ne_nil _)]
    exact lastChar_natRepr _
  · rw [if_neg h]
    exact lastChar_natRepr _

/-- A JSON string literal ends with its closing quote. -/
theorem lastChar_jsonQuote (s : String) : lastChar (jsonQuote s) = some '"' :=
  lastChar_append_single _ _ '"' rfl

/-- The indented JSON encoding of a value never ends in a newline: scalars
end with a letter, digit or quote, and composites end with their closing
bracket. -/
theorem lastChar_encodeIndent (v : JValue) (d : Nat) :
    lastChar (encodeIndent v d) ≠ some '\n' := by
  cases v with
  | null => exact (by decide : lastChar "null" ≠ some '\n')
  | bool b =>
    cases b
    · exact (by decide : lastChar "false" ≠ some '\n')
    · exact (by decide : lastChar "true" ≠ some '\n')
  | num n => exact lastChar_intRepr n
  | str s => rw [show encodeIndent (JValue.str s) d = jsonQuote s from rfl, lastChar_jsonQuote]; decide
  | arr items =>
    cases items with
    | nil => exact (by decide : lastChar "[]" ≠ some '\n')
    | cons v tl =>
      rw [show encodeIndent (JValue.arr (JArr.cons v tl)) d =
        ("[\n" ++ encodeArrItems (JArr.cons v tl) (d + 1) ++ "\n" ++ indentStr d) ++ "]" from rfl]
      rw [lastChar_append_single _ _ ']' rfl]
      decide
  | obj fields =>
    cases fields with
    | nil => exact (by decide : lastChar "\x7b\x7d" ≠ some '\n')
    | cons k v tl =>
      rw [show encodeIndent (JValue.obj (JObj.cons k v tl)) d =
        ("\x7b\n" ++ encodeObjItems (JObj.cons k v tl) (d + 1) ++ "\n" ++ indentStr d) ++ "\x7d" from rfl]
      rw [lastChar_append_single _ _ '\x7d' rfl]
      decide

/-- Appending one newline to a string that does not end in a newline yields a
string with exactly one trailing newline. -/
theorem trailingNewlines_append_nl (s : String) (h : lastChar s ≠ some '\n') :
    trailingNewlines (s ++ "\n") = 1 := by
  have hrest : (s.data.reverse.takeWhile (fun c => c == '\n')) = [] := by
    cases hrev : s.data.reverse with
    | nil => rfl
    | cons c t =>
      have hhead : s.data.reverse.head? = some c := by rw [hrev]; rfl
      rw [List.head?_reverse] at hhead
      have hc : c ≠ '\n' := by
        intro hceq
        exact h (by unfold lastChar; rw [hhead, hceq])
      rw [List.takeWhile_cons, if_neg (by simp [hc])]
  unfold trailingNewlines
  rw [String.data_append, show ("\n" : String).data = ['\n'] from rfl, List.reverse_append,
    show (['\n'] : List Char).reverse = ['\n'] from rfl, List.singleton_append,
    List.takeWhile_cons, if_pos (by decide), hrest]
  rfl

/-! ### Comparator theorems: the Comparison Result invariant -/

/-- The default comparator's diagnostic is empty exactly when it passes. -/
theorem stringComparator_msg_iff (expected actual : Reader) :
    (StringComparator expected actual).2 = "" ↔ (StringComparator expected actual).1 = true := by
  obtain e | e := expected
  · exact iff_of_false (append_ne_empty _ _ (by decide)) Bool.false_ne_true
  · obtain a | a := actual
    · exact iff_of_false (append_ne_empty _ _ (by decide)) Bool.false_ne_true
    · cases hb : (e == a) with
      | false =>
        simp only [StringComparator, readToString, hb, Bool.false_eq_true, if_false]
        exact iff_false_intro
          (append_ne_empty _ _ (append_ne_empty _ _ (append_ne_empty _ _ (by decide))))
      | true =>
        simp [StringComparator, readToString, hb]

/-- The string diff comparator's diagnostic is empty exactly when it passes. -/
theorem stringDiffComparator_msg_iff (expected actual : Reader) :
    (StringDiffComparator expected actual).2 = "" ↔ (StringDiffComparator expected actual).1 = true := by
  obtain a | a := actual
  · exact iff_of_false (append_ne_empty _ _ (by decide)) Bool.false_ne_true
  · obtain e | e := expected
    · exact iff_of_false (append_ne_empty _ _ (by decide)) Bool.false_ne_true
    · exact beq_iff_eq.symm

/-- The cmp diff comparator's diagnostic is empty exactly when it passes. -/
theorem cmpDiffComparator_msg_iff (expected actual : Reader) :
    (CmpDiffComparator expected actual).2 = "" ↔ (CmpDiffComparator expected actual).1 = true := by
  obtain a | a := actual
  · exact iff_of_false (append_ne_empty _ _ (by decide)) Bool.false_ne_true
  · obtain e | e := expected
    · exact iff_of_false (append_ne_empty _ _ (by decide)) Bool.false_ne_true
    · exact beq_iff_eq.symm

/-- C8: for every pair of input streams, each built-in comparator
(StringComparator, StringDiffComparator, CmpDiffComparator) returns a pair
(ok, msg) where msg is the empty string if and only if ok is true; in
particular every failing result, read failures included, carries a non-empty
diagnostic. -/
theorem C8_comparison_result_invariant (expected actual : Reader) :
    ((StringComparator expected actual).2 = "" ↔ (StringComparator expected actual).1 = true)
    ∧ ((StringDiffComparator expected actual).2 = "" ↔ (StringDiffComparator expected actual).1 = true)
    ∧ ((CmpDiffComparator expected actual).2 = "" ↔ (CmpDiffComparator expected actual).1 = true) :=
  ⟨stringComparator_msg_iff expected actual, stringDiffComparator_msg_iff expected actual,
    cmpDiffComparator_msg_iff expected actual⟩

/-- C7: for every built-in comparator, a read failure of either stream
produces a failing result whose message names the side that failed and
carries the underlying error text, instead of crashing.  The comparators
read in their source order: `StringComparator` reads expected first, the
diff comparators read actual first, so the message of the side read first
wins when both would fail. -/
theorem C7_read_failure_soft (err content : String) (other : Reader) :
    StringComparator (Except.error err) other =
      (false, "failed to read expected data from reader: " ++ err)
    ∧ StringComparator (Except.ok content) (Except.error err) =
      (false, "failed to read actual data from reader: " ++ err)
    ∧ StringDiffComparator other (Except.error err) =
      (false, "failed to read actual io.Reader: " ++ err)
    ∧ StringDiffComparator (Except.error err) (Except.ok content) =
      (false, "failed to read expected io.Reader: " ++ err)
    ∧ CmpDiffComparator other (Except.error err) =
      (false, "failed to read actual io.Reader: " ++ err)
    ∧ CmpDiffComparator (Except.error err) (Except.ok content) =
      (false, "failed to read expected io.Reader: " ++ err) :=
  ⟨rfl, rfl, rfl, rfl, rfl, rfl⟩

/-- C6: evaluation of `CmpDiffComparator` at two streams with identical
contents "hello".  It fails with a non-empty diagnostic even though the
contents are equal, because it hands `cmp.Diff` a `[]byte` (expected, from
`io.ReadAll`) and a `string` (actual, from `readToString`), and values of
different dynamic types are never equal; `StringDiffComparator` on the same
streams passes, and fails with a non-empty diff exactly on unequal
contents. -/
theorem C6_cmpDiffComparator_type_mismatch :
    (CmpDiffComparator (Except.ok "hello") (Except.ok "hello")).1 = false
    ∧ (CmpDiffComparator (Except.ok "hello") (Except.ok "hello")).2 ≠ ""
    ∧ StringDiffComparator (Except.ok "hello") (Except.ok "hello") = (true, "")
    ∧ (StringDiffComparator (Except.ok "hello") (Except.ok "world")).1 = false
    ∧ (StringDiffComparator (Except.ok "hello") (Except.ok "world")).2 ≠ "" := by
  refine ⟨rfl, by decide, rfl, rfl, by decide⟩

/-! ### Matcher theorems -/

/-- C2: with an existing persisted snapshot of text E and an actual stream of
text A, Match under the default options returns ok exactly when E and A are
identical, leaves storage untouched, and on mismatch its diagnostic renders
both values quoted. -/
theorem C2_change_detection (dir tname E A : String) (fs : FS)
    (hex : fs (getSnapshotFilePath dir tname "output" ".txt") = some E) :
    Match dir tname fs (Except.ok A) [] =
      Except.ok ((E == A),
        (if E == A then "" else "expected " ++ goQuote E ++ ", got " ++ goQuote A), fs) := by
  unfold Match
  simp only [applyMatchOptions, List.foldl_nil, defaultMatchOptions]
  rw [hex]
  cases hb : (E == A) with
  | false => simp [StringComparator, readToString, NopReaderNormaliser, hb]
  | true => simp [StringComparator, readToString, NopReaderNormaliser, hb]

/-- Witness for C2 at the spec's concrete example: persisted expected
"hello" against actual "world" yields the quoted-mismatch diagnostic. -/
theorem C2_change_detection_witness :
    Match "d" "TestT"
      (fsUpdate emptyFS (getSnapshotFilePath "d" "TestT" "output" ".txt") "hello")
      (Except.ok "world") [] =
      Except.ok (false, "expected \"hello\", got \"world\"",
        fsUpdate emptyFS (getSnapshotFilePath "d" "TestT" "output" ".txt") "hello") := by
  have h := C2_change_detection "d" "TestT" "hello" "world"
    (fsUpdate emptyFS (getSnapshotFilePath "d" "TestT" "output" ".txt") "hello")
    (by simp [fsUpdate])
  rw [h]
  rfl

/-- C1 counterexample: on a first run (no artifact), choosing a comparator
that reports failure makes Match return a result other than (true, ""), so
first-run acceptance does not hold for every choice of comparator option. -/
theorem C1_counterexample :
    (Match "d" "TestT" emptyFS (Except.ok "A")
        [WithComparator (fun _ _ => (false, "forced failure"))]).toOption.map
      (fun r => (r.1, r.2.1)) = some (false, "forced failure")
    ∧ ((false, "forced failure") : Bool × String) ≠ (true, "") :=
  ⟨rfl, by decide⟩

/-- C1 (amended): on a first run, for every normaliser and every comparator,
Match persists a byte-identical artifact of the actual data A; and whenever
the chosen comparator reports the two identically-populated normalised
streams as equal with an empty diagnostic — as the default comparator and
every well-behaved one does — Match returns (true, ""). -/
theorem C1_first_run_acceptance (dir tname A : String) (fs : FS)
    (cmp : Comparator) (norm : ReaderNormaliser)
    (habs : fs (getSnapshotFilePath dir tname "output" ".txt") = none)
    (hcmp : cmp (norm (Except.ok A)) (norm (Except.ok A)) = (true, "")) :
    Match dir tname fs (Except.ok A) [WithComparator cmp, WithReaderNormaliser norm] =
      Except.ok (true, "",
        fsUpdate fs (getSnapshotFilePath dir tname "output" ".txt") A)
    ∧ fsUpdate fs (getSnapshotFilePath dir tname "output" ".txt") A
        (getSnapshotFilePath dir tname "output" ".txt") = some A
    ∧ ∀ (cmp2 : Comparator) (norm2 : ReaderNormaliser),
        (Match dir tname fs (Except.ok A)
            [WithComparator cmp2, WithReaderNormaliser norm2]).toOption.map
          (fun r => r.2.2 (getSnapshotFilePath dir tname "output" ".txt")) =
          some (some A) := by
  refine ⟨?_, by simp [fsUpdate], ?_⟩
  · unfold Match
    simp only [applyMatchOptions, List.foldl_cons, List.foldl_nil,
      WithComparator, WithReaderNormaliser, defaultMatchOptions]
    rw [habs]
    simp only [hcmp]
  · intro cmp2 norm2
    unfold Match
    simp only [applyMatchOptions, List.foldl_cons, List.foldl_nil,
      WithComparator, WithReaderNormaliser, defaultMatchOptions]
    rw [habs]
    show some ((fsUpdate fs (getSnapshotFilePath dir tname "output" ".txt") A)
      (getSnapshotFilePath dir tname "output" ".txt")) = some (some A)
    simp [fsUpdate]

/-- Witness for C1 under the default comparator and normaliser, at actual
data "hello" on empty storage. -/
theorem C1_first_run_acceptance_witness :
    Match "d" "TestT" emptyFS (Except.ok "hello")
      [WithComparator StringComparator, WithReaderNormaliser NopReaderNormaliser] =
      Except.ok (true, "",
        fsUpdate emptyFS (getSnapshotFilePath "d" "TestT" "output" ".txt") "hello") :=
  (C1_first_run_acceptance "d" "TestT" "hello" emptyFS StringComparator
    NopReaderNormaliser rfl (by decide)).1

/-! ### Loader theorems -/

/-- C3: when the fixture artifact exists, GetTestInput returns its bytes,
leaves storage untouched, and its result does not depend on the supplied
creator (the generator is never invoked); having created the artifact from a
first generator yielding d1 and drained the returned stream, a second call
with any other generator again returns d1. -/
theorem C3_fixture_persistence (dir tname c d1 : String) (fsA fs0 : FS)
    (g g2 : SnapshotCreator)
    (hex : fsA (getSnapshotFilePath dir tname "input" ".txt") = some c)
    (habs : fs0 (getSnapshotFilePath dir tname "input" ".txt") = none) :
    GetTestInput dir tname fsA [WithCreateSnapshot g] =
      Except.ok (InputReader.file c, fsA)
    ∧ GetTestInput dir tname fs0 [WithCreateSnapshot (Except.ok (Except.ok d1))] =
      Except.ok (InputReader.tee (Except.ok d1) (getSnapshotFilePath dir tname "input" ".txt"),
        fsUpdate fs0 (getSnapshotFilePath dir tname "input" ".txt") "")
    ∧ readInput (InputReader.tee (Except.ok d1) (getSnapshotFilePath dir tname "input" ".txt"))
        (fsUpdate fs0 (getSnapshotFilePath dir tname "input" ".txt") "") =
      (Except.ok d1,
        fsUpdate (fsUpdate fs0 (getSnapshotFilePath dir tname "input" ".txt") "")
          (getSnapshotFilePath dir tname "input" ".txt") d1)
    ∧ GetTestInput dir tname
        (fsUpdate (fsUpdate fs0 (getSnapshotFilePath dir tname "input" ".txt") "")
          (getSnapshotFilePath dir tname "input" ".txt") d1) [WithCreateSnapshot g2] =
      Except.ok (InputReader.file d1,
        fsUpdate (fsUpdate fs0 (getSnapshotFilePath dir tname "input" ".txt") "")
          (getSnapshotFilePath dir tname "input" ".txt") d1) := by
  refine ⟨?_, ?_, rfl, ?_⟩
  · unfold GetTestInput
    simp only [applyGetTestInputOptions, List.foldl_cons, List.foldl_nil,
      WithCreateSnapshot, defaultGetTestInputOptions]
    rw [hex]
  · unfold GetTestInput
    simp only [applyGetTestInputOptions, List.foldl_cons, List.foldl_nil,
      WithCreateSnapshot, defaultGetTestInputOptions]
    rw [habs]
  · unfold GetTestInput
    simp only [applyGetTestInputOptions, List.foldl_cons, List.foldl_nil,
      WithCreateSnapshot, defaultGetTestInputOptions]
    rw [show (fsUpdate (fsUpdate fs0 (getSnapshotFilePath dir tname "input" ".txt") "")
      (getSnapshotFilePath dir tname "input" ".txt") d1)
      (getSnapshotFilePath dir tname "input" ".txt") = some d1 by simp [fsUpdate]]

/-- Witness for C3: on storage holding "x" at the input artifact path, the
loader returns "x" and ignores a creator that would have failed. -/
theorem C3_fixture_persistence_witness :
    GetTestInput "d" "TestT"
      (fsUpdate emptyFS (getSnapshotFilePath "d" "TestT" "input" ".txt") "x")
      [WithCreateSnapshot (Except.error "unused")] =
      Except.ok (InputReader.file "x",
        fsUpdate emptyFS (getSnapshotFilePath "d" "TestT" "input" ".txt") "x") :=
  (C3_fixture_persistence "d" "TestT" "x" "hello"
    (fsUpdate emptyFS (getSnapshotFilePath "d" "TestT" "input" ".txt") "x") emptyFS
    (Except.error "unused") (Except.ok (Except.ok "other"))
    (by simp [fsUpdate]) rfl).1

/-- C4: when the fixture artifact is absent and the applied options supply no
creator, GetTestInput fails the test fatally with the missing-snapshot
message and returns no stream. -/
theorem C4_missing_fixture_fatal (dir tname : String) (fs : FS)
    (optFns : List GetTestInputOption)
    (hgen : (applyGetTestInputOptions optFns).CreateSnapshot = none)
    (habs : fs (getSnapshotFilePath dir tname
      (applyGetTestInputOptions optFns).SnapshotName
      (applyGetTestInputOptions optFns).FileExtension) = none) :
    GetTestInput dir tname fs optFns =
      Except.error ("snapshot file " ++ goQuote (getSnapshotFilePath dir tname
        (applyGetTestInputOptions optFns).SnapshotName
        (applyGetTestInputOptions optFns).FileExtension) ++
        " does not exist and no CreateSnapshot option was provided") := by
  simp only [GetTestInput]
  rw [habs, hgen]

/-- Witness for C4: with empty storage and no options, the loader fails
fatally. -/
theorem C4_missing_fixture_fatal_witness :
    GetTestInput "d" "TestT" emptyFS [] =
      Except.error ("snapshot file " ++ goQuote (getSnapshotFilePath "d" "TestT"
        (applyGetTestInputOptions []).SnapshotName
        (applyGetTestInputOptions []).FileExtension) ++
        " does not exist and no CreateSnapshot option was provided") :=
  C4_missing_fixture_fatal "d" "TestT" emptyFS [] rfl rfl

/-- C5 counterexample: at the moment GetTestInput returns with a creator
yielding "hello" on empty storage, the persisted artifact holds "" — the
freshly created empty file — not the generator's bytes, because the returned
stream is a lazy tee that has not been read yet. -/
theorem C5_counterexample :
    (GetTestInput "d" "TestT" emptyFS
        [WithCreateSnapshot (Except.ok (Except.ok "hello"))]).toOption.map
      (fun r => r.2 (getSnapshotFilePath "d" "TestT" "input" ".txt")) = some (some "")
    ∧ some ("" : String) ≠ some "hello" :=
  ⟨rfl, by decide⟩

/-- C5 (amended): with the artifact absent and a creator yielding data d,
GetTestInput invokes the creator once, creates the artifact (initially
empty) and returns a tee of the creator's stream into it; the caller's
single read of the returned stream yields d and, as the same read,
persists d, after which the artifact holds exactly the generator's bytes. -/
theorem C5_lazy_tee_persistence (dir tname d : String) (fs : FS)
    (habs : fs (getSnapshotFilePath dir tname "input" ".txt") = none) :
    GetTestInput dir tname fs [WithCreateSnapshot (Except.ok (Except.ok d))] =
      Except.ok (InputReader.tee (Except.ok d) (getSnapshotFilePath dir tname "input" ".txt"),
        fsUpdate fs (getSnapshotFilePath dir tname "input" ".txt") "")
    ∧ readInput (InputReader.tee (Except.ok d) (getSnapshotFilePath dir tname "input" ".txt"))
        (fsUpdate fs (getSnapshotFilePath dir tname "input" ".txt") "") =
      (Except.ok d,
        fsUpdate (fsUpdate fs (getSnapshotFilePath dir tname "input" ".txt") "")
          (getSnapshotFilePath dir tname "input" ".txt") d)
    ∧ fsUpdate (fsUpdate fs (getSnapshotFilePath dir tname "input" ".txt") "")
        (getSnapshotFilePath dir tname "input" ".txt") d
        (getSnapshotFilePath dir tname "input" ".txt") = some d := by
  refine ⟨?_, rfl, by simp [fsUpdate]⟩
  unfold GetTestInput
  simp only [applyGetTestInputOptions, List.foldl_cons, List.foldl_nil,
    WithCreateSnapshot, defaultGetTestInputOptions]
  rw [habs]

/-- Witness for C5's amended statement with generator data "hello" on empty
storage: after the caller drains the tee, the artifact holds "hello". -/
theorem C5_lazy_tee_persistence_witness :
    readInput (InputReader.tee (Except.ok "hello") (getSnapshotFilePath "d" "TestT" "input" ".txt"))
      (fsUpdate emptyFS (getSnapshotFilePath "d" "TestT" "input" ".txt") "") =
      (Except.ok "hello",
        fsUpdate (fsUpdate emptyFS (getSnapshotFilePath "d" "TestT" "input" ".txt") "")
          (getSnapshotFilePath "d" "TestT" "input" ".txt") "hello") :=
  (C5_lazy_tee_persistence "d" "TestT" "hello" emptyFS rfl).2.1

/-! ### Serialization theorems -/

/-- Validation of the encoder model against the repository's own
`TestAsJSON` expectation: the two-field struct encodes to the test's
expected two-space-indented text with one trailing newline. -/
theorem asJSON_test_vector :
    encoderEncode (JValue.obj (JObj.cons "Member1" (JValue.str "hello")
      (JObj.cons "Member2" (JValue.str "world") JObj.nil))) =
      "\x7b\n  \"Member1\": \"hello\",\n  \"Member2\": \"world\"\n\x7d\n" := by
  decide

/-- C9: a zero-argument callable returning exactly one value serializes to
that value's encoding; a callable returning zero or several values fails
with the arity error message and produces no output. -/
theorem C9_serialization_arity (v : JValue) (rs : List JValue) :
    AsJSON (JSONInput.callable [v]) = Except.ok (encoderEncode v)
    ∧ (rs.length ≠ 1 →
        AsJSON (JSONInput.callable rs) =
          Except.error "callable arguments to AsJSON must return a single value") := by
  refine ⟨rfl, fun h => ?_⟩
  match rs with
  | [] => rfl
  | [x] => exact absurd rfl h
  | x :: y :: tl => rfl

/-- C10: every value a direct or single-result-callable AsJSON call
serializes successfully yields the two-space-indented JSON encoding followed
by exactly one trailing newline. -/
theorem C10_asjson_trailing_newline (v : JValue) :
    AsJSON (JSONInput.value v) = Except.ok (encodeIndent v 0 ++ "\n")
    ∧ AsJSON (JSONInput.callable [v]) = Except.ok (encodeIndent v 0 ++ "\n")
    ∧ trailingNewlines (encodeIndent v 0 ++ "\n") = 1 :=
  ⟨rfl, rfl, trailingNewlines_append_nl _ (lastChar_encodeIndent v 0)⟩

end Snapshot
